import Mathlib

/-!
Verification of the OTP-gated credential-rotation core of
`src/backend/server.py` (FastAPI service "OTP Linux Password Change
System").  The Python code is shallowly embedded: each handler becomes a
pure Lean function from its inputs (the per-identifier rate-limit state,
the database lookup result, the submitted request fields, the current
Unix time, and the outcome of the external collaborators) to its result
and post-state.  Time is modelled as `Nat` Unix seconds; the TOTP value
of a secret at a 30-second time step is an oracle function
`String → Nat → String`, standing for pyotp's HMAC computation.
-/

/-- Mirror of the `User` pydantic model (server.py lines 44-52):
`id`, `username`, `email`, `totp_secret`, `is_active`, `created_at`,
and the nullable replay pair `last_otp_used` / `last_otp_time`. -/
structure User where
  id : String
  username : String
  email : String
  totp_secret : String
  is_active : Bool
  created_at : Nat
  last_otp_used : Option String
  last_otp_time : Option Nat
deriving DecidableEq, Repr

/-- `MAX_ATTEMPTS_PER_HOUR = 5` (server.py line 41). -/
def MAX_ATTEMPTS_PER_HOUR : Nat := 5

/-- Mirror of `check_rate_limit` (server.py lines 68-81) acting on the
timestamp list stored for one identifier: keep only timestamps with
`current_time - attempt_time < 3600`, deny when at least
`MAX_ATTEMPTS_PER_HOUR` remain, otherwise append `now` and admit.
Returns the admission decision and the post-state of the list (the
pruned list is written back even on denial, as the Python slice
assignment does). -/
def check_rate_limit (attempts : List Nat) (now : Nat) : Bool × List Nat :=
  let pruned := attempts.filter (fun t => decide (now - t < 3600))
  if MAX_ATTEMPTS_PER_HOUR ≤ pruned.length then (false, pruned)
  else (true, pruned ++ [now])

/-- Folds `check_rate_limit` over a sequence of call times, starting
from a given stored list; returns the list of admission decisions and
the final stored list. -/
def run_calls (times : List Nat) (s : List Nat) : List Bool × List Nat :=
  match times with
  | [] => ([], s)
  | t :: ts =>
    let r := check_rate_limit s t
    let rest := run_calls ts r.2
    (r.1 :: rest.1, rest.2)

/-- The 30-second TOTP time step of a Unix time, pyotp's
`timecode`: `int(time / 30)`. -/
def tstep (now : Nat) : Nat := now / 30

/-- Mirror of `verify_totp` (server.py lines 109-112):
`pyotp.TOTP(secret).verify(token, valid_window=1)` compares the token
with the TOTP values of the time steps `timecode-1`, `timecode`,
`timecode+1`.  `codeAt` is the oracle giving the secret's TOTP value at
each step. -/
def verify_totp (codeAt : Nat → String) (token : String) (now : Nat) : Bool :=
  token == codeAt (tstep now - 1) || token == codeAt (tstep now)
    || token == codeAt (tstep now + 1)

/-- Mirror of the replay check in `change_password` (server.py lines
303-311): replay iff `last_otp_used == otp_code` and `last_otp_time` is
set and `(current_time - last_otp_time).total_seconds() < 30`. -/
def isReplay (user : User) (otp_code : String) (now : Nat) : Bool :=
  match user.last_otp_used, user.last_otp_time with
  | some lo, some lt => lo == otp_code && decide (now - lt < 30)
  | _, _ => false

/-- Error taxonomy of the `/change-password` handler: one constructor
per `HTTPException` raised, plus success. -/
inductive RotateResult where
  | rateLimited
  | notFound
  | disabled
  | invalidCode
  | replayedCode
  | weakCredential
  | rotationFailed
  | success
deriving DecidableEq, Repr

/-- Observable outcome of one `/change-password` call: the result, the
post-state of the account record, the post-state of the rate-limit list
for `change_pass_{username}`, and whether the privileged
`change_linux_password` collaborator was invoked. -/
structure RotateOutcome where
  result : RotateResult
  user_after : Option User
  rate_after : List Nat
  rotator_called : Bool
deriving DecidableEq, Repr

/-- Mirror of `change_password` (server.py lines 283-337).  Inputs: the
TOTP oracle, the stored rate-limit list for this username, the database
lookup result, the request fields, the current time, and the outcome
the external `change_linux_password` collaborator would report.  The
checks run in source order: rate limit, lookup, `is_active`,
`verify_totp`, replay window, password length, rotator; on rotator
success the account's `last_otp_used`/`last_otp_time` are set to the
just-used code and time in one update. -/
def change_password (codeAt : String → Nat → String) (rate : List Nat)
    (userOpt : Option User) (otp_code new_password : String) (now : Nat)
    (rotatorOk : Bool) : RotateOutcome :=
  let rl := check_rate_limit rate now
  if !rl.1 then ⟨.rateLimited, userOpt, rl.2, false⟩
  else
    match userOpt with
    | none => ⟨.notFound, none, rl.2, false⟩
    | some user =>
      if !user.is_active then ⟨.disabled, some user, rl.2, false⟩
      else if !verify_totp (codeAt user.totp_secret) otp_code now then
        ⟨.invalidCode, some user, rl.2, false⟩
      else if isReplay user otp_code now then
        ⟨.replayedCode, some user, rl.2, false⟩
      else if new_password.length < 8 then
        ⟨.weakCredential, some user, rl.2, false⟩
      else if !rotatorOk then ⟨.rotationFailed, some user, rl.2, true⟩
      else
        ⟨.success,
         some { user with last_otp_used := some otp_code,
                          last_otp_time := some now },
         rl.2, true⟩

/-- Mirror of `check_linux_user_exists` (server.py lines 157-168), test
mode: membership in `['testuser', 'demo', 'test', username]` or length
above 3. -/
def check_linux_user_exists (username : String) : Bool :=
  let test_users : List String := ["testuser", "demo", "test", username]
  test_users.contains username || decide (username.length > 3)

/-- Modelled from the spec: pyotp's `provisioning_uri` (called by
`generate_qr_code`, server.py lines 88-93) is not in this repository;
§4.2 specifies the standard
`otpauth://totp/...?secret=...&issuer=...` descriptor, deterministic in
its inputs. -/
def provisioning_uri (name secret issuer : String) : String :=
  "otpauth://totp/" ++ issuer ++ ":" ++ name ++ "?" ++ "secret=" ++ secret
    ++ "&issuer=" ++ issuer

/-- The provisioning URI that `generate_qr_code` (server.py lines
88-93) encodes into the QR image: name `"{username}@linux-system"`,
issuer `"Linux OTP System"`. -/
def generate_qr_code_uri (username secret : String) : String :=
  provisioning_uri (username ++ "@linux-system") secret "Linux OTP System"

/-- The JSON body returned by a successful `/register` call
(server.py lines 277-281): exactly the three fields below. -/
structure RegisterResponse where
  status : String
  message : String
  username : String
deriving DecidableEq, Repr

/-- Result of the `/register` handler: one constructor per
`HTTPException`, or success carrying the returned body and the `User`
record inserted into the database. -/
inductive RegisterResult where
  | rateLimited
  | duplicateUsername
  | duplicateEmail
  | unknownIdentity
  | ok (response : RegisterResponse) (newUser : User)
deriving DecidableEq, Repr

/-- True exactly on the `unknownIdentity` constructor. -/
def RegisterResult.isUnknownIdentity : RegisterResult → Bool
  | .unknownIdentity => true
  | _ => false

/-- Mirror of `register_user` (server.py lines 187-281).  Inputs: the
stored rate-limit list for `register_{email}`, the duplicate-lookup
results, the id and TOTP secret the generators produce, the request
fields and current time.  Checks in source order: rate limit, username
duplicate, email duplicate, `check_linux_user_exists`; then the `User`
is built (replay pair defaulted to `None`) and the literal
status/message/username body is returned — the secret and URI go only
into the emailed QR code. -/
def register_user (rate : List Nat) (existsUsername existsEmail : Bool)
    (userId secret username email : String) (now : Nat) :
    RegisterResult × List Nat :=
  let rl := check_rate_limit rate now
  if !rl.1 then (.rateLimited, rl.2)
  else if existsUsername then (.duplicateUsername, rl.2)
  else if existsEmail then (.duplicateEmail, rl.2)
  else if !check_linux_user_exists username then (.unknownIdentity, rl.2)
  else
    (.ok { status := "success",
           message := "User registered successfully. QR code sent to email.",
           username := username }
         { id := userId, username := username, email := email,
           totp_secret := secret, is_active := true, created_at := now,
           last_otp_used := none, last_otp_time := none },
     rl.2)

/-- The record shape returned per user by the `/users` admin endpoint
(server.py lines 369-377): the stored document minus the two popped
keys `totp_secret` and `last_otp_used`.  `last_otp_time` is not popped
and remains in the response. -/
structure PublicUser where
  id : String
  username : String
  email : String
  is_active : Bool
  created_at : Nat
  last_otp_time : Option Nat
deriving DecidableEq, Repr

/-- The per-record projection performed by `get_users`'s pop calls. -/
def strip_user (u : User) : PublicUser :=
  { id := u.id, username := u.username, email := u.email,
    is_active := u.is_active, created_at := u.created_at,
    last_otp_time := u.last_otp_time }

/-- Mirror of `get_users` (server.py lines 369-377): list all stored
users with `totp_secret` and `last_otp_used` removed. -/
def get_users (users : List User) : List PublicUser :=
  users.map strip_user

/-- Whether `hay` starts with `needle` (character lists). -/
def starts_with : List Char → List Char → Bool
  | _, [] => true
  | [], _ :: _ => false
  | a :: s, b :: t => a == b && starts_with s t

/-- Whether `needle` occurs contiguously inside `hay`. -/
def has_substring : List Char → List Char → Bool
  | [], needle => needle.isEmpty
  | a :: s, needle => starts_with (a :: s) needle || has_substring s needle

/-- The invariant of §3: `last_otp_used` and `last_otp_time` are either
both null or both set. -/
def replay_inv (u : User) : Prop :=
  u.last_otp_used.isSome = u.last_otp_time.isSome

/-- Helper: the test-mode identity check always succeeds, because the
username itself is an element of the list it is tested against. -/
theorem check_linux_user_exists_true (username : String) :
    check_linux_user_exists username = true := by
  simp [check_linux_user_exists]

/-- C2: `verify_totp` returns true iff the submitted code equals the
TOTP value of one of the three 30-second time steps
`{now - 30, now, now + 30}`; a code matching no value of these three
steps is rejected.  Stated for real Unix times (`30 ≤ now`). -/
theorem verify_totp_window (codeAt : Nat → String) (token : String) (now : Nat)
    (h : 30 ≤ now) :
    verify_totp codeAt token now = true ↔
      (token = codeAt (tstep (now - 30)) ∨ token = codeAt (tstep now)
        ∨ token = codeAt (tstep (now + 30))) := by
  have h1 : tstep (now - 30) = tstep now - 1 := by unfold tstep; omega
  have h2 : tstep (now + 30) = tstep now + 1 := by unfold tstep; omega
  rw [h1, h2]
  simp [verify_totp, Bool.or_eq_true, or_assoc]

/-- Witness for C2 at `now = 60` with a constant code oracle. -/
theorem verify_totp_window_witness :
    verify_totp (fun _ => "2") "2" 60 = true :=
  (verify_totp_window (fun _ => "2") "2" 60 (by decide)).mpr (Or.inl rfl)

/-- C3: per-call characterization of `check_rate_limit`: admission iff
fewer than 5 in-window timestamps remain after pruning; denial records
nothing beyond the prune; admission appends `now`; six calls inside one
window from an empty ledger admit exactly the first five; once every
recorded timestamp has aged at least 3600 seconds, admission resumes. -/
theorem rate_limiter_spec :
    (∀ s now, (check_rate_limit s now).1 = true ↔
        (s.filter (fun t => decide (now - t < 3600))).length < 5)
    ∧ (∀ s now, (check_rate_limit s now).1 = false →
        (check_rate_limit s now).2 = s.filter (fun t => decide (now - t < 3600)))
    ∧ (∀ s now, (check_rate_limit s now).1 = true →
        (check_rate_limit s now).2
          = s.filter (fun t => decide (now - t < 3600)) ++ [now])
    ∧ (∀ now, (run_calls (List.replicate 6 now) []).1
          = [true, true, true, true, true, false])
    ∧ (∀ s now, (∀ t ∈ s, 3600 ≤ now - t) → (check_rate_limit s now).1 = true) := by
  refine ⟨?_, ?_, ?_, ?_, ?_⟩
  · intro s now
    simp only [check_rate_limit, MAX_ATTEMPTS_PER_HOUR]
    split <;> simp <;> omega
  · intro s now h
    simp only [check_rate_limit, MAX_ATTEMPTS_PER_HOUR] at h ⊢
    split at h
    next hc => rw [if_pos hc]
    next hc => simp_all
  · intro s now h
    simp only [check_rate_limit, MAX_ATTEMPTS_PER_HOUR] at h ⊢
    split at h
    next hc => simp_all
    next hc => rw [if_neg hc]
  · intro now
    simp [run_calls, check_rate_limit, MAX_ATTEMPTS_PER_HOUR, Nat.sub_self,
      List.replicate]
  · intro s now h
    unfold check_rate_limit MAX_ATTEMPTS_PER_HOUR
    have hnil : s.filter (fun t => decide (now - t < 3600)) = [] := by
      rw [List.filter_eq_nil_iff]
      intro t ht
      have := h t ht
      simp
      omega
    rw [hnil]
    simp

/-- Witness for C3: with one timestamp aged exactly one window, the
resumption branch admits the call. -/
theorem rate_limiter_spec_witness : (check_rate_limit [0] 3600).1 = true :=
  rate_limiter_spec.2.2.2.2 [0] 3600 (by decide)

/-- C10: the identity-existence check returns true for every username
(the username is a member of the list it is tested against), so the
`unknownIdentity` branch of `register_user` is unreachable for any
input. -/
theorem unknown_identity_unreachable :
    (∀ username, check_linux_user_exists username = true)
    ∧ (∀ rate eU eE uid sec un em now,
        ((register_user rate eU eE uid sec un em now).1).isUnknownIdentity
          = false) := by
  refine ⟨check_linux_user_exists_true, ?_⟩
  intro rate eU eE uid sec un em now
  unfold register_user
  cases h1 : (check_rate_limit rate now).1 <;> cases eU <;> cases eE <;>
    simp [h1, check_linux_user_exists_true, RegisterResult.isUnknownIdentity]

/-- Helper: every `/change-password` call on a found account either
succeeds with exactly the replay pair rewritten to the just-used
code/time, or fails with the stored record untouched. -/
theorem change_password_split (codeAt : String → Nat → String) (rate : List Nat)
    (user : User) (otp_code new_password : String) (now : Nat)
    (rotatorOk : Bool) :
    ((change_password codeAt rate (some user) otp_code new_password now
          rotatorOk).result = .success
      ∧ (change_password codeAt rate (some user) otp_code new_password now
          rotatorOk).user_after
        = some { user with last_otp_used := some otp_code,
                           last_otp_time := some now })
    ∨ ((change_password codeAt rate (some user) otp_code new_password now
          rotatorOk).result ≠ .success
      ∧ (change_password codeAt rate (some user) otp_code new_password now
          rotatorOk).user_after = some user) := by
  cases h1 : (check_rate_limit rate now).1 <;>
  cases h2 : user.is_active <;>
  cases h3 : verify_totp (codeAt user.totp_secret) otp_code now <;>
  cases h4 : isReplay user otp_code now <;>
  cases h6 : rotatorOk <;>
  by_cases h5 : new_password.length < 8 <;>
  simp [change_password, h1, h2, h3, h4, h5, h6]

/-- C1: on an active account, when the submitted code equals
`last_otp_used` and fewer than 30 seconds have passed since
`last_otp_time`, the call fails with `replayedCode`, the privileged
rotator is not invoked and the record is unchanged — even though
`verify_totp` accepts the code; and the replay check runs only after
verification: with a failing code the call ends at `invalidCode`. -/
theorem replay_rejected_within_window (codeAt : String → Nat → String)
    (rate : List Nat) (user : User) (otp_code new_password : String)
    (lt now : Nat) (rotatorOk : Bool)
    (hrl : (check_rate_limit rate now).1 = true)
    (hact : user.is_active = true)
    (hlo : user.last_otp_used = some otp_code)
    (hlt : user.last_otp_time = some lt)
    (hwin : now - lt < 30) :
    (verify_totp (codeAt user.totp_secret) otp_code now = true →
      (change_password codeAt rate (some user) otp_code new_password now
          rotatorOk).result = .replayedCode
      ∧ (change_password codeAt rate (some user) otp_code new_password now
          rotatorOk).rotator_called = false
      ∧ (change_password codeAt rate (some user) otp_code new_password now
          rotatorOk).user_after = some user)
    ∧ (verify_totp (codeAt user.totp_secret) otp_code now = false →
      (change_password codeAt rate (some user) otp_code new_password now
          rotatorOk).result = .invalidCode) := by
  have hrep : isReplay user otp_code now = true := by
    simp [isReplay, hlo, hlt, hwin]
  constructor <;> intro hv <;> simp [change_password, hrl, hact, hv, hrep]

/-- Witness for C1: a code accepted 10 seconds ago is rejected as a
replay even though the TOTP oracle still accepts it. -/
theorem replay_rejected_within_window_witness :
    (change_password (fun _ _ => "111111") []
        (some ⟨"i", "alice", "a@x.com", "S", true, 0, some "111111", some 990⟩)
        "111111" "longenough1" 1000 true).result = .replayedCode :=
  ((replay_rejected_within_window (fun _ _ => "111111") []
      ⟨"i", "alice", "a@x.com", "S", true, 0, some "111111", some 990⟩
      "111111" "longenough1" 990 1000 true (by decide) rfl rfl rfl
      (by decide)).1 (by decide)).1

/-- C4: when every check through credential validation passes but the
external rotator reports failure, the call returns `rotationFailed` and
the stored record — in particular the replay pair — is unchanged, so a
retry with a fresh code remains possible. -/
theorem rotation_failure_preserves_replay_state
    (codeAt : String → Nat → String) (rate : List Nat) (user : User)
    (otp_code new_password : String) (now : Nat)
    (hrl : (check_rate_limit rate now).1 = true)
    (hact : user.is_active = true)
    (hver : verify_totp (codeAt user.totp_secret) otp_code now = true)
    (hrep : isReplay user otp_code now = false)
    (hlen : ¬ new_password.length < 8) :
    (change_password codeAt rate (some user) otp_code new_password now
        false).result = .rotationFailed
    ∧ (change_password codeAt rate (some user) otp_code new_password now
        false).user_after = some user := by
  simp [change_password, hrl, hact, hver, hrep, hlen]

/-- Witness for C4: a rotator failure on an otherwise valid call leaves
the account record untouched. -/
theorem rotation_failure_preserves_replay_state_witness :
    (change_password (fun _ _ => "222222") []
        (some ⟨"i", "alice", "a@x.com", "S", true, 0, none, none⟩)
        "222222" "longenough1" 1000 false).result = .rotationFailed
    ∧ (change_password (fun _ _ => "222222") []
        (some ⟨"i", "alice", "a@x.com", "S", true, 0, none, none⟩)
        "222222" "longenough1" 1000 false).user_after
      = some ⟨"i", "alice", "a@x.com", "S", true, 0, none, none⟩ :=
  rotation_failure_preserves_replay_state (fun _ _ => "222222") []
    ⟨"i", "alice", "a@x.com", "S", true, 0, none, none⟩
    "222222" "longenough1" 1000 (by decide) rfl (by decide) (by decide)
    (by decide)

/-- C6 counterexample: on an existing active account with a
7-characters-short password, a submitted code that fails TOTP
verification makes the call fail with `invalidCode`, not
`weakCredential` — the password-length check sits after the code
checks. -/
theorem weak_credential_cex :
    (change_password (fun _ _ => "000000") []
        (some ⟨"i", "alice", "a@x.com", "S", true, 0, none, none⟩)
        "123456" "short" 1000 true).result = .invalidCode
    ∧ RotateResult.invalidCode ≠ RotateResult.weakCredential := by
  exact ⟨by decide, by decide⟩

/-- C6 amended: on an existing active account, when the submitted code
passes TOTP verification and the replay check and the new credential is
shorter than 8 characters, the call fails with `weakCredential`, no
replay-state write is recorded and the rotator is not invoked. -/
theorem weak_credential_after_verification (codeAt : String → Nat → String)
    (rate : List Nat) (user : User) (otp_code new_password : String)
    (now : Nat) (rotatorOk : Bool)
    (hrl : (check_rate_limit rate now).1 = true)
    (hact : user.is_active = true)
    (hver : verify_totp (codeAt user.totp_secret) otp_code now = true)
    (hrep : isReplay user otp_code now = false)
    (hlen : new_password.length < 8) :
    (change_password codeAt rate (some user) otp_code new_password now
        rotatorOk).result = .weakCredential
    ∧ (change_password codeAt rate (some user) otp_code new_password now
        rotatorOk).user_after = some user
    ∧ (change_password codeAt rate (some user) otp_code new_password now
        rotatorOk).rotator_called = false := by
  simp [change_password, hrl, hact, hver, hrep, hlen]

/-- Witness for C6 amended: a verified code with the password `short`
ends in `weakCredential` with no state change. -/
theorem weak_credential_after_verification_witness :
    (change_password (fun _ _ => "222222") []
        (some ⟨"i", "alice", "a@x.com", "S", true, 0, none, none⟩)
        "222222" "short" 1000 true).result = .weakCredential :=
  (weak_credential_after_verification (fun _ _ => "222222") []
    ⟨"i", "alice", "a@x.com", "S", true, 0, none, none⟩
    "222222" "short" 1000 true (by decide) rfl (by decide) (by decide)
    (by decide)).1

/-- C7: every successful call leaves the account with `last_otp_used`
equal to the just-submitted code and `last_otp_time` equal to the
call's current time, both rewritten in the one committing update, all
other fields unchanged. -/
theorem successful_rotation_updates_replay_state
    (codeAt : String → Nat → String) (rate : List Nat) (user : User)
    (otp_code new_password : String) (now : Nat) (rotatorOk : Bool)
    (h : (change_password codeAt rate (some user) otp_code new_password now
        rotatorOk).result = .success) :
    (change_password codeAt rate (some user) otp_code new_password now
        rotatorOk).user_after
      = some { user with last_otp_used := some otp_code,
                         last_otp_time := some now } := by
  rcases change_password_split codeAt rate user otp_code new_password now
      rotatorOk with ⟨_, hu⟩ | ⟨hn, _⟩
  · exact hu
  · exact absurd h hn

/-- Witness for C7: a fully valid call commits the code and time. -/
theorem successful_rotation_updates_replay_state_witness :
    (change_password (fun _ _ => "222222") []
        (some ⟨"i", "alice", "a@x.com", "S", true, 0, none, none⟩)
        "222222" "longenough1" 1000 true).user_after
      = some ⟨"i", "alice", "a@x.com", "S", true, 0, some "222222",
              some 1000⟩ :=
  successful_rotation_updates_replay_state (fun _ _ => "222222") []
    ⟨"i", "alice", "a@x.com", "S", true, 0, none, none⟩
    "222222" "longenough1" 1000 true (by decide)

/-- C8: `last_otp_used`/`last_otp_time` are created both-null by
enrollment, every unsuccessful rotation leaves the stored record
untouched, and every rotation outcome preserves the both-null-or-
both-set invariant (a successful one sets both). -/
theorem replay_pair_invariant :
    (∀ rate eU eE uid sec un em now resp u,
        (register_user rate eU eE uid sec un em now).1 = .ok resp u →
        u.last_otp_used = none ∧ u.last_otp_time = none)
    ∧ (∀ (codeAt : String → Nat → String) rate user otp_code new_password now
          rotatorOk,
        (change_password codeAt rate (some user) otp_code new_password now
            rotatorOk).result ≠ .success →
        (change_password codeAt rate (some user) otp_code new_password now
            rotatorOk).user_after = some user)
    ∧ (∀ (codeAt : String → Nat → String) rate user otp_code new_password now
          rotatorOk u2,
        replay_inv user →
        (change_password codeAt rate (some user) otp_code new_password now
            rotatorOk).user_after = some u2 →
        replay_inv u2) := by
  refine ⟨?_, ?_, ?_⟩
  · intro rate eU eE uid sec un em now resp u h
    cases h1 : (check_rate_limit rate now).1 <;> cases eU <;> cases eE <;>
      simp [register_user, h1, check_linux_user_exists_true] at h
    obtain ⟨-, hu⟩ := h
    subst hu
    exact ⟨rfl, rfl⟩
  · intro codeAt rate user otp_code new_password now rotatorOk h
    rcases change_password_split codeAt rate user otp_code new_password now
        rotatorOk with ⟨hs, -⟩ | ⟨-, hu⟩
    · exact absurd hs h
    · exact hu
  · intro codeAt rate user otp_code new_password now rotatorOk u2 hinv h
    rcases change_password_split codeAt rate user otp_code new_password now
        rotatorOk with ⟨-, hu⟩ | ⟨-, hu⟩
    · have h2 := Option.some.inj (h.symm.trans hu)
      subst h2
      simp [replay_inv]
    · have h2 := Option.some.inj (h.symm.trans hu)
      subst h2
      exact hinv

/-- Witness for C8: an enrollment inserts a both-null replay pair; a
disabled-account call leaves the record untouched; the invariant
survives a concrete successful call. -/
theorem replay_pair_invariant_witness :
    ((User.mk "id1" "alice" "a@x.com" "SECRET" true 0 none none).last_otp_used
        = none
      ∧ (User.mk "id1" "alice" "a@x.com" "SECRET" true 0 none
          none).last_otp_time = none)
    ∧ (change_password (fun _ _ => "0") []
        (some ⟨"i", "bob", "b@x.com", "S", false, 0, none, none⟩)
        "1" "x" 5 true).user_after
      = some ⟨"i", "bob", "b@x.com", "S", false, 0, none, none⟩
    ∧ replay_inv ⟨"i", "alice", "a@x.com", "S", true, 0, some "222222",
        some 1000⟩ :=
  ⟨replay_pair_invariant.1 [] false false "id1" "SECRET" "alice" "a@x.com" 0
      ⟨"success", "User registered successfully. QR code sent to email.",
       "alice"⟩
      (User.mk "id1" "alice" "a@x.com" "SECRET" true 0 none none) (by decide),
   replay_pair_invariant.2.1 (fun _ _ => "0") []
      ⟨"i", "bob", "b@x.com", "S", false, 0, none, none⟩ "1" "x" 5 true
      (by decide),
   replay_pair_invariant.2.2 (fun _ _ => "222222") []
      ⟨"i", "alice", "a@x.com", "S", true, 0, none, none⟩ "222222"
      "longenough1" 1000 true
      ⟨"i", "alice", "a@x.com", "S", true, 0, some "222222", some 1000⟩
      rfl (by decide)⟩

/-- C5 counterexample: a successful `/register` call returns only the
literal status/message/username body; the generated 32-character base32
secret occurs in none of the three returned fields (so neither does a
URI containing it). -/
theorem enroll_response_lacks_secret_cex :
    (register_user [] false false "id1" "ABCDEFGHIJKLMNOPQRSTUVWXYZ234567"
        "alice" "a@x.com" 0).1
      = .ok ⟨"success",
             "User registered successfully. QR code sent to email.", "alice"⟩
          ⟨"id1", "alice", "a@x.com", "ABCDEFGHIJKLMNOPQRSTUVWXYZ234567",
           true, 0, none, none⟩
    ∧ has_substring "success".toList
        "ABCDEFGHIJKLMNOPQRSTUVWXYZ234567".toList = false
    ∧ has_substring
        "User registered successfully. QR code sent to email.".toList
        "ABCDEFGHIJKLMNOPQRSTUVWXYZ234567".toList = false
    ∧ has_substring "alice".toList
        "ABCDEFGHIJKLMNOPQRSTUVWXYZ234567".toList = false :=
  ⟨by decide, by decide, by decide, by decide⟩

/-- C5 amended: a rate-admitted, duplicate-free Enroll succeeds,
returning only the fixed status/message and the username; the secret is
stored on the inserted account, and the provisioning URI encoded into
the emailed QR code contains `secret=<secret>`. -/
theorem enroll_success_material (rate : List Nat)
    (uid secret username email : String) (now : Nat)
    (hrl : (check_rate_limit rate now).1 = true) :
    (register_user rate false false uid secret username email now).1
      = .ok ⟨"success",
             "User registered successfully. QR code sent to email.",
             username⟩
          ⟨uid, username, email, secret, true, now, none, none⟩
    ∧ ∃ A B, generate_qr_code_uri username secret
        = A ++ "secret=" ++ secret ++ B := by
  constructor
  · simp [register_user, hrl, check_linux_user_exists_true]
  · exact ⟨"otpauth://totp/" ++ "Linux OTP System" ++ ":"
        ++ (username ++ "@linux-system") ++ "?",
      "&issuer=" ++ "Linux OTP System",
      by simp [generate_qr_code_uri, provisioning_uri, String.append_assoc]⟩

/-- Witness for C5 amended at a concrete enrollment. -/
theorem enroll_success_material_witness :
    (register_user [] false false "id1" "SECRETKEY" "alice" "a@x.com" 0).1
      = .ok ⟨"success",
             "User registered successfully. QR code sent to email.",
             "alice"⟩
          ⟨"id1", "alice", "a@x.com", "SECRETKEY", true, 0, none, none⟩
    ∧ ∃ A B, generate_qr_code_uri "alice" "SECRETKEY"
        = A ++ "secret=" ++ "SECRETKEY" ++ B :=
  enroll_success_material [] "id1" "SECRETKEY" "alice" "a@x.com" 0 (by decide)

/-- C9 counterexample: two stored accounts identical except in
`last_otp_time` produce different `/users` listings — the accessor
returns `last_otp_time` (the replay timestamp) to the caller. -/
theorem list_accounts_exposes_last_otp_time_cex :
    get_users [⟨"i", "alice", "a@x.com", "S", true, 0, some "111111", none⟩]
      ≠ get_users [⟨"i", "alice", "a@x.com", "S", true, 0, some "111111",
          some 100⟩] := by
  decide

/-- C9 amended: the `/users` listing is independent of `totp_secret`
and `last_otp_used` (both popped), and each returned record carries
exactly id, username, email, is_active, created_at and the retained
`last_otp_time`. -/
theorem list_accounts_fields :
    (∀ (u : User) (s : String) (c : Option String),
        get_users [{ u with totp_secret := s, last_otp_used := c }]
          = get_users [u])
    ∧ (∀ u : User, get_users [u]
        = [⟨u.id, u.username, u.email, u.is_active, u.created_at,
            u.last_otp_time⟩]) := by
  refine ⟨?_, ?_⟩
  · intro u s c
    simp [get_users, strip_user]
  · intro u
    simp [get_users, strip_user]
